import Mathlib

/-!
Shallow embedding of `src/name_anonymizer.py`.

The module is glue around two external engines: an entity detector (presidio's
`AnalyzerEngine`, possibly extended with a deny-list `PatternRecognizer` and an
opaque flair recognizer) and a span replacer (presidio's `AnonymizerEngine`).
The detector's NLP behaviour is external, so it enters the embedding as an
arbitrary function parameter; the replacer's substitution behaviour is modelled
from the documented contract (replace each detected span whose entity type has
a redaction operator, leave the rest of the text alone).
-/

/-- One detection produced by the analyzer: an entity-type label and the
character span `[start, stop)` it covers.  Corresponds to presidio's
`RecognizerResult`; the confidence score is never consulted by the module and
is omitted. -/
structure RecognizerResult where
  entity_type : String
  start : Nat
  stop : Nat
  deriving DecidableEq

/-- A deny-list pattern recognizer, as built by
`PatternRecognizer(supported_entity=..., deny_list=...)`. -/
structure PatternRecognizer where
  supported_entity : String
  deny_list : List String
  deriving DecidableEq

/-- One entry of the recognizer registry: a built-in predefined recognizer
(loaded by `load_predefined_recognizers`), a deny-list pattern recognizer, or
an opaque recognizer supplied by the caller (the `flair_recognizer`
argument). -/
inductive Recognizer where
  | predefined (name : String)
  | pattern (p : PatternRecognizer)
  | auxiliary (id : Nat)
  deriving DecidableEq

/-- A redaction-operator descriptor, as in
`OperatorConfig("replace", \x7b"new_value": ...\x7d)`. -/
structure OperatorConfig where
  operator_name : String
  new_value : String
  deriving DecidableEq

/-- The black-box detection function of an analyzer engine: text, entity-type
filter and language code in, detections out.  The NLP inference itself is
external to the module. -/
abbrev AnalyzeFn : Type :=
  String → List String → String → List RecognizerResult

/-- The analyzer engine: the recognizer registry it was built over, and its
(black-box) detection function. -/
structure AnalyzerEngine where
  registry : List Recognizer
  analyze : AnalyzeFn

/-- The replacer engine (`AnonymizerEngine()`); it carries no configuration of
its own. -/
structure AnonymizerEngine where
  deriving DecidableEq

/-- The configuration bundle returned by `initialize_anonymizer`: the dict with
keys 'analyzer', 'anonymizer', 'config' and 'entities'.  The entity-type to
operator mapping is a Python dict built by insertion; it is embedded as the
association list of its insertions. -/
structure EngineConfig where
  analyzer : AnalyzerEngine
  anonymizer : AnonymizerEngine
  config : List (String × OperatorConfig)
  entities : List String

/-- Lookup in the operator mapping (Python `dict` access by key; keys here are
inserted at most once, so first match suffices). -/
def lookupOp (operators : List (String × OperatorConfig)) (ety : String) :
    Option OperatorConfig :=
  match operators with
  | [] => none
  | p :: rest => if p.1 = ety then some p.2 else lookupOp rest ety

/-- Insert a detection into a list kept sorted by `start` descending. -/
def insertByStart (r : RecognizerResult) :
    List RecognizerResult → List RecognizerResult
  | [] => [r]
  | x :: xs => if x.start ≤ r.start then r :: x :: xs else x :: insertByStart r xs

/-- Sort detections by `start` descending, so spans can be substituted from the
right end of the text leftwards without disturbing the remaining offsets. -/
def sortByStartDesc : List RecognizerResult → List RecognizerResult
  | [] => []
  | x :: xs => insertByStart x (sortByStartDesc xs)

/-- Modelled from the spec: the external replacer engine's `anonymize` method
(presidio's `AnonymizerEngine.anonymize`, absent from `src/`).  Per the spec,
only detections whose entity type is present in the operator mapping are
replaced — each such span `[start, stop)` is substituted by the operator's
replacement value — and detections of unmapped entity types leave the text
untouched. -/
def AnonymizerEngine.anonymize (_engine : AnonymizerEngine) (text : String)
    (analyzer_results : List RecognizerResult)
    (operators : List (String × OperatorConfig)) : String :=
  (sortByStartDesc analyzer_results).foldl (fun t r =>
    match lookupOp operators r.entity_type with
    | some op =>
        if op.operator_name = "replace" then
          t.take r.start ++ op.new_value ++ t.drop r.stop
        else t
    | none => t) text

/-- Python truthiness of the `deny_list` argument: `if deny_list:` is taken
exactly when the argument is present and non-empty. -/
def denyListTruthy : Option (List String) → Bool
  | some (_ :: _) => true
  | _ => false

/-- `initialize_anonymizer(deny_list=None, flair_recognizer=None)`.  The two
leading parameters stand for the external collaborators: the predefined
recognizer set that `load_predefined_recognizers` installs, and the NLP
machinery that turns a registry into a detection function when
`AnalyzerEngine(registry=registry)` is constructed. -/
def initialize_anonymizer (predefined_recognizers : List Recognizer)
    (nlp : List Recognizer → AnalyzeFn)
    (deny_list : Option (List String)) (flair_recognizer : Option Recognizer) :
    EngineConfig :=
  let registry := predefined_recognizers
  let analyzer_entites := ["PERSON"]
  let registry :=
    if denyListTruthy deny_list then
      registry ++ [Recognizer.pattern ⟨"PREDEFINED_NAME", deny_list.getD []⟩]
    else registry
  let registry :=
    match flair_recognizer with
    | some r => registry ++ [r]
    | none => registry
  let analyzer : AnalyzerEngine := ⟨registry, nlp registry⟩
  let anonymizer : AnonymizerEngine := ⟨⟩
  let anonymizer_config :=
    [("PERSON", OperatorConfig.mk "replace" "[name redacted]")]
  let anonymizer_config :=
    if denyListTruthy deny_list then
      anonymizer_config ++
        [("PREDEFINED_NAME", OperatorConfig.mk "replace" "[name redacted]")]
    else anonymizer_config
  let analyzer_entites :=
    if denyListTruthy deny_list then analyzer_entites ++ ["PREDEFINED_NAME"]
    else analyzer_entites
  { analyzer := analyzer, anonymizer := anonymizer,
    config := anonymizer_config, entities := analyzer_entites }

/-- `anonymize_text(text_to_anonymize, engine_config)`: run detection
restricted to the bundle's entity list (language fixed to 'en'), feed the
detections and the operator mapping to the replacer, and return the replaced
text together with the raw detection list. -/
def anonymize_text (text_to_anonymize : String) (engine_config : EngineConfig) :
    String × List RecognizerResult :=
  let analyzer := engine_config.analyzer
  let anonymizer := engine_config.anonymizer
  let config := engine_config.config
  let entites := engine_config.entities
  let analyzer_results := analyzer.analyze text_to_anonymize entites "en"
  let anonymized_text :=
    anonymizer.anonymize text_to_anonymize analyzer_results config
  (anonymized_text, analyzer_results)

/-- A cell of a tabular column: a string, a number, or a null.  Covers the
value kinds the spec discusses for source columns. -/
inductive Cell where
  | str (s : String)
  | int (n : Int)
  | null
  deriving DecidableEq

/-- Python `str()` on a cell, as `df[column].astype(str)` applies it: strings
pass through, numbers are printed, `None` becomes the string "None". -/
def cellStr : Cell → String
  | .str s => s
  | .int n => toString n
  | .null => "None"

/-- A pandas DataFrame, embedded as its ordered list of named columns. -/
abbrev DataFrame : Type :=
  List (String × List Cell)

/-- `df[name]`: the first column called `name` (column names are unique in
pandas; an absent column is embedded as the empty column). -/
def getCol (df : DataFrame) (name : String) : List Cell :=
  match df with
  | [] => []
  | p :: rest => if p.1 = name then p.2 else getCol rest name

/-- Whether `df` has a column called `name`. -/
def hasCol (df : DataFrame) (name : String) : Bool :=
  match df with
  | [] => false
  | p :: rest => p.1 = name || hasCol rest name

/-- `df[name] = values`: overwrite the column if present, append it at the end
otherwise — pandas column assignment. -/
def setCol (df : DataFrame) (name : String) (values : List Cell) : DataFrame :=
  if hasCol df name then
    df.map (fun p => if p.1 = name then (name, values) else p)
  else
    df ++ [(name, values)]

/-- `anonymize_dataframe_column(df, column_name, new_column_name,
engine_config)`: coerce the source column to strings in place, anonymize each
coerced value in row order, and assign the results to the new column.  (The
tqdm progress bar and the edge-case prints are observational side effects with
no bearing on the returned table and are not embedded.) -/
def anonymize_dataframe_column (df : DataFrame)
    (column_name new_column_name : String) (engine_config : EngineConfig) :
    DataFrame :=
  let df := setCol df column_name
    ((getCol df column_name).map (fun v => Cell.str (cellStr v)))
  let anonymized_values :=
    (getCol df column_name).map
      (fun v => (anonymize_text (cellStr v) engine_config).1)
  setCol df new_column_name (anonymized_values.map Cell.str)

/-- The number of characters of the input text that the replacer substitutes:
the total width of the spans of the detections whose entity type has a
redaction operator. -/
def replacedCharCount (results : List RecognizerResult)
    (operators : List (String × OperatorConfig)) : Nat :=
  (results.map (fun r =>
    if (lookupOp operators r.entity_type).isSome then r.stop - r.start else 0)).sum

/-- The number of detections that the replacer acts on: those whose entity
type has a redaction operator. -/
def redactedCount (results : List RecognizerResult)
    (operators : List (String × OperatorConfig)) : Nat :=
  (results.filter (fun r => (lookupOp operators r.entity_type).isSome)).length

/-- A trivial black-box detector that finds nothing, for concrete instances. -/
def nlp0 : List Recognizer → AnalyzeFn :=
  fun _ _ _ _ => []

/-- A concrete bundle built with neither a deny list nor a flair recognizer
over the trivial detector. -/
def cfg0 : EngineConfig :=
  initialize_anonymizer [] nlp0 none none

/-- A concrete black-box detector that reports one PERSON detection covering
the whole of "John Smith" when asked to scan for PERSON. -/
def johnNlp : List Recognizer → AnalyzeFn :=
  fun _ text entity_types _ =>
    if text = "John Smith" ∧ "PERSON" ∈ entity_types then
      [⟨"PERSON", 0, 10⟩]
    else []

/-- The default bundle over the `johnNlp` detector. -/
def johnConfig : EngineConfig :=
  initialize_anonymizer [] johnNlp none none

theorem getCol_map_set (df : DataFrame) (name : String) (v : List Cell)
    (h : hasCol df name = true) :
    getCol (df.map (fun p => if p.1 = name then (name, v) else p)) name = v := by
  induction df with
  | nil => simp [hasCol] at h
  | cons p rest ih =>
    by_cases hp : p.1 = name
    · simp [getCol, hp]
    · simp only [hasCol, hp, decide_False, Bool.false_or] at h
      simp [getCol, hp, ih h]

theorem getCol_append_new (df : DataFrame) (name : String) (v : List Cell)
    (h : hasCol df name = false) :
    getCol (df ++ [(name, v)]) name = v := by
  induction df with
  | nil => simp [getCol]
  | cons p rest ih =>
    simp only [hasCol, Bool.or_eq_false_iff, decide_eq_false_iff_not] at h
    simp [getCol, h.1, ih h.2]

theorem getCol_setCol (df : DataFrame) (name : String) (v : List Cell) :
    getCol (setCol df name v) name = v := by
  unfold setCol
  cases h : hasCol df name with
  | true => simpa using getCol_map_set df name v h
  | false => simpa using getCol_append_new df name v h

theorem getCol_map_set_ne (df : DataFrame) (name c : String) (v : List Cell)
    (hc : c ≠ name) :
    getCol (df.map (fun p => if p.1 = name then (name, v) else p)) c =
      getCol df c := by
  induction df with
  | nil => simp [getCol]
  | cons p rest ih =>
    by_cases hp : p.1 = name
    · have hpc : ¬ p.1 = c := by rw [hp]; exact fun e => hc e.symm
      have hnc : ¬ name = c := fun e => hc e.symm
      simp [getCol, hp, hpc, hnc, ih]
    · simp only [List.map_cons, getCol, hp, if_neg hp]
      by_cases hpc : p.1 = c <;> simp [getCol, hpc, ih]

theorem getCol_append_ne (df : DataFrame) (name c : String) (v : List Cell)
    (hc : c ≠ name) :
    getCol (df ++ [(name, v)]) c = getCol df c := by
  induction df with
  | nil =>
    have : ¬ name = c := fun e => hc e.symm
    simp [getCol, this]
  | cons p rest ih =>
    by_cases hp : p.1 = c <;> simp [getCol, hp, ih]

theorem getCol_setCol_ne (df : DataFrame) (name c : String) (v : List Cell)
    (hc : c ≠ name) :
    getCol (setCol df name v) c = getCol df c := by
  unfold setCol
  cases h : hasCol df name with
  | true => simpa using getCol_map_set_ne df name c v hc
  | false => simpa using getCol_append_ne df name c v hc

theorem hasCol_map_set (df : DataFrame) (name : String) (v : List Cell)
    (h : hasCol df name = true) :
    hasCol (df.map (fun p => if p.1 = name then (name, v) else p)) name =
      true := by
  induction df with
  | nil => simp [hasCol] at h
  | cons p rest ih =>
    by_cases hp : p.1 = name
    · simp [hasCol, hp]
    · simp only [hasCol, hp, decide_False, Bool.false_or] at h
      simp [hasCol, hp, ih h]

theorem hasCol_append (df df2 : DataFrame) (name : String) :
    hasCol (df ++ df2) name = (hasCol df name || hasCol df2 name) := by
  induction df with
  | nil => simp [hasCol]
  | cons p rest ih => simp [hasCol, ih, Bool.or_assoc]

theorem hasCol_setCol (df : DataFrame) (name : String) (v : List Cell) :
    hasCol (setCol df name v) name = true := by
  unfold setCol
  cases h : hasCol df name with
  | true => simpa using hasCol_map_set df name v h
  | false => simp [hasCol_append, hasCol]

theorem anonDF_target (df : DataFrame) (c n : String) (cfg : EngineConfig) :
    getCol (anonymize_dataframe_column df c n cfg) n =
      (getCol df c).map
        (fun v => Cell.str ((anonymize_text (cellStr v) cfg).1)) := by
  unfold anonymize_dataframe_column
  rw [getCol_setCol, getCol_setCol]
  simp [List.map_map, Function.comp, cellStr]

theorem anonDF_source (df : DataFrame) (c n : String) (cfg : EngineConfig)
    (h : n ≠ c) :
    getCol (anonymize_dataframe_column df c n cfg) c =
      (getCol df c).map (fun v => Cell.str (cellStr v)) := by
  unfold anonymize_dataframe_column
  rw [getCol_setCol_ne _ _ _ _ (fun e => h e.symm), getCol_setCol]

theorem initialize_entities (p : List Recognizer)
    (nlp : List Recognizer → AnalyzeFn) (dl : Option (List String))
    (fl : Option Recognizer) :
    (initialize_anonymizer p nlp dl fl).entities =
      if denyListTruthy dl then ["PERSON", "PREDEFINED_NAME"]
      else ["PERSON"] := by
  cases hd : denyListTruthy dl <;> simp [initialize_anonymizer, hd]

theorem initialize_config (p : List Recognizer)
    (nlp : List Recognizer → AnalyzeFn) (dl : Option (List String))
    (fl : Option Recognizer) :
    (initialize_anonymizer p nlp dl fl).config =
      if denyListTruthy dl then
        [("PERSON", OperatorConfig.mk "replace" "[name redacted]"),
         ("PREDEFINED_NAME", OperatorConfig.mk "replace" "[name redacted]")]
      else [("PERSON", OperatorConfig.mk "replace" "[name redacted]")] := by
  cases hd : denyListTruthy dl <;> simp [initialize_anonymizer, hd]

theorem initialize_registry (p : List Recognizer)
    (nlp : List Recognizer → AnalyzeFn) (dl : Option (List String))
    (fl : Option Recognizer) :
    (initialize_anonymizer p nlp dl fl).analyzer.registry =
      ((if denyListTruthy dl then
          p ++ [Recognizer.pattern ⟨"PREDEFINED_NAME", dl.getD []⟩]
        else p) ++ (match fl with | some r => [r] | none => [])) := by
  cases hd : denyListTruthy dl <;> cases fl <;>
    simp [initialize_anonymizer, hd]

/-- C1: for every combination of the optional deny-list and auxiliary
recognizer arguments, the bundle returned by `initialize_anonymizer` keeps its
entity-type scan list and its redaction-operator mapping in sync: every entity
type in the bundle's 'entities' list is a key of the bundle's 'config'
mapping. -/
theorem entities_subset_config_keys (predefined_recognizers : List Recognizer)
    (nlp : List Recognizer → AnalyzeFn) (deny_list : Option (List String))
    (flair_recognizer : Option Recognizer) (ety : String)
    (h : ety ∈ (initialize_anonymizer predefined_recognizers nlp deny_list
      flair_recognizer).entities) :
    (lookupOp (initialize_anonymizer predefined_recognizers nlp deny_list
      flair_recognizer).config ety).isSome = true := by
  rw [initialize_entities] at h
  rw [initialize_config]
  cases hd : denyListTruthy deny_list <;> rw [hd] at h <;> simp at h
  · subst h; simp [lookupOp]
  · rcases h with h | h <;> subst h <;> simp [lookupOp]

/-- C1 witness at a concrete input. -/
theorem entities_subset_config_keys_w :
    "PREDEFINED_NAME" ∈ (initialize_anonymizer [] nlp0 (some ["Alice"])
      none).entities ∧
    (lookupOp (initialize_anonymizer [] nlp0 (some ["Alice"])
      none).config "PREDEFINED_NAME").isSome = true :=
  ⟨by decide,
   entities_subset_config_keys [] nlp0 (some ["Alice"]) none "PREDEFINED_NAME"
     (by decide)⟩

/-- C2: every bundle returned by `initialize_anonymizer` scans for PERSON and
maps PERSON to a replace operator with the fixed value "[name redacted]". -/
theorem person_always_configured (predefined_recognizers : List Recognizer)
    (nlp : List Recognizer → AnalyzeFn) (deny_list : Option (List String))
    (flair_recognizer : Option Recognizer) :
    "PERSON" ∈ (initialize_anonymizer predefined_recognizers nlp deny_list
      flair_recognizer).entities ∧
    lookupOp (initialize_anonymizer predefined_recognizers nlp deny_list
      flair_recognizer).config "PERSON" =
      some (OperatorConfig.mk "replace" "[name redacted]") := by
  cases hd : denyListTruthy deny_list <;>
    simp [initialize_anonymizer, hd, lookupOp]

/-- C3: with a non-empty deny list, `initialize_anonymizer` registers a
pattern recognizer for PREDEFINED_NAME built from that list, appends
PREDEFINED_NAME to the scan list and adds its replace rule; with the argument
omitted or empty, PREDEFINED_NAME is in neither the scan list nor the
mapping. -/
theorem deny_list_controls_predefined_name
    (predefined_recognizers : List Recognizer)
    (nlp : List Recognizer → AnalyzeFn) (flair_recognizer : Option Recognizer) :
    (∀ l : List String, l ≠ [] →
      Recognizer.pattern ⟨"PREDEFINED_NAME", l⟩ ∈
        (initialize_anonymizer predefined_recognizers nlp (some l)
          flair_recognizer).analyzer.registry ∧
      "PREDEFINED_NAME" ∈ (initialize_anonymizer predefined_recognizers nlp
        (some l) flair_recognizer).entities ∧
      lookupOp (initialize_anonymizer predefined_recognizers nlp (some l)
          flair_recognizer).config "PREDEFINED_NAME" =
        some (OperatorConfig.mk "replace" "[name redacted]")) ∧
    (∀ deny_list : Option (List String), denyListTruthy deny_list = false →
      "PREDEFINED_NAME" ∉ (initialize_anonymizer predefined_recognizers nlp
        deny_list flair_recognizer).entities ∧
      lookupOp (initialize_anonymizer predefined_recognizers nlp deny_list
        flair_recognizer).config "PREDEFINED_NAME" = none) := by
  constructor
  · intro l hl
    have hd : denyListTruthy (some l) = true := by
      cases l with
      | nil => exact absurd rfl hl
      | cons a as => rfl
    refine ⟨?_, ?_, ?_⟩
    · rw [initialize_registry, hd]
      simp
    · rw [initialize_entities, hd]
      simp
    · rw [initialize_config, hd]
      simp [lookupOp]
  · intro deny_list hd
    constructor
    · rw [initialize_entities, hd]
      simp
    · rw [initialize_config, hd]
      simp [lookupOp]

/-- C3 witness at concrete inputs. -/
theorem deny_list_controls_predefined_name_w :
    ("PREDEFINED_NAME" ∈
      (initialize_anonymizer [] nlp0 (some ["Alice"]) none).entities ∧
     Recognizer.pattern ⟨"PREDEFINED_NAME", ["Alice"]⟩ ∈
      (initialize_anonymizer [] nlp0 (some ["Alice"]) none).analyzer.registry) ∧
    "PREDEFINED_NAME" ∉ (initialize_anonymizer [] nlp0 none none).entities :=
  ⟨⟨((deny_list_controls_predefined_name [] nlp0 none).1 ["Alice"]
      (by decide)).2.1,
    ((deny_list_controls_predefined_name [] nlp0 none).1 ["Alice"]
      (by decide)).1⟩,
   ((deny_list_controls_predefined_name [] nlp0 none).2 none rfl).1⟩

/-- C9: supplying an auxiliary (flair) recognizer appends it to the registry
as-is, and leaves the scan list and the redaction-operator mapping exactly as
they are without it. -/
theorem flair_registered_as_is (predefined_recognizers : List Recognizer)
    (nlp : List Recognizer → AnalyzeFn) (deny_list : Option (List String))
    (r : Recognizer) :
    (initialize_anonymizer predefined_recognizers nlp deny_list
        (some r)).analyzer.registry =
      (initialize_anonymizer predefined_recognizers nlp deny_list
        none).analyzer.registry ++ [r] ∧
    (initialize_anonymizer predefined_recognizers nlp deny_list
        (some r)).entities =
      (initialize_anonymizer predefined_recognizers nlp deny_list
        none).entities ∧
    (initialize_anonymizer predefined_recognizers nlp deny_list
        (some r)).config =
      (initialize_anonymizer predefined_recognizers nlp deny_list
        none).config := by
  refine ⟨?_, ?_, ?_⟩
  · rw [initialize_registry, initialize_registry]
    simp
  · rw [initialize_entities, initialize_entities]
  · rw [initialize_config, initialize_config]

/-- C5: when the bundle's detector reports no detections on a text — as on
already-redacted text holding only the literal marker and no further names —
`anonymize_text` returns the text unchanged together with an empty detection
list. -/
theorem no_detection_returns_unchanged (text : String) (cfg : EngineConfig)
    (h : cfg.analyzer.analyze text cfg.entities "en" = []) :
    anonymize_text text cfg = (text, []) := by
  show (cfg.anonymizer.anonymize text
      (cfg.analyzer.analyze text cfg.entities "en") cfg.config,
    cfg.analyzer.analyze text cfg.entities "en") = (text, [])
  rw [h]
  rfl

/-- C5 witness: re-running on the bare redaction marker is the identity. -/
theorem no_detection_returns_unchanged_w :
    anonymize_text "[name redacted]" cfg0 = ("[name redacted]", []) :=
  no_detection_returns_unchanged "[name redacted]" cfg0 rfl

/-- C6 (as stated) is false: one PERSON detection spanning the ten characters
of "John Smith" yields a detection list of length 1 while ten characters are
replaced. -/
theorem detections_ge_replaced_chars_cex :
    ¬ ((anonymize_text "John Smith" johnConfig).2.length ≥
       replacedCharCount (anonymize_text "John Smith" johnConfig).2
         johnConfig.config) := by
  decide

/-- C6 (amended): the detection list returned by `anonymize_text` has length
greater than or equal to the number of detections actually replaced in the
output text (those whose entity type has a redaction operator). -/
theorem detections_ge_redacted (text : String) (cfg : EngineConfig) :
    (anonymize_text text cfg).2.length ≥
      redactedCount (anonymize_text text cfg).2 cfg.config := by
  exact List.length_filter_le _ _

/-- C8: `anonymize_text` returns the detector's full detection list,
unfiltered by the redaction mapping. -/
theorem returns_full_detection_list (text : String) (cfg : EngineConfig) :
    (anonymize_text text cfg).2 =
      cfg.analyzer.analyze text cfg.entities "en" :=
  rfl

/-- C4: for every table with the named source column,
`anonymize_dataframe_column` writes a target column of the same length whose
row i is the anonymized text of row i of the source column, creating or
overwriting the target column. -/
theorem column_rows_anonymized (df : DataFrame)
    (column_name new_column_name : String) (engine_config : EngineConfig)
    (h : hasCol df column_name = true) :
    (getCol (anonymize_dataframe_column df column_name new_column_name
        engine_config) new_column_name).length =
      (getCol df column_name).length ∧
    (∀ i : Nat,
      (getCol (anonymize_dataframe_column df column_name new_column_name
          engine_config) new_column_name)[i]? =
        ((getCol df column_name)[i]?).map
          (fun v => Cell.str ((anonymize_text (cellStr v) engine_config).1))) ∧
    hasCol (anonymize_dataframe_column df column_name new_column_name
      engine_config) new_column_name = true := by
  refine ⟨?_, ?_, ?_⟩
  · rw [anonDF_target]
    exact List.length_map _ _
  · intro i
    rw [anonDF_target]
    exact List.getElem?_map _ _ _
  · exact hasCol_setCol _ _ _

/-- C4 witness at a concrete one-row table. -/
theorem column_rows_anonymized_w :
    (getCol (anonymize_dataframe_column [("name", [Cell.str "Bob"])] "name"
        "anon" cfg0) "anon").length =
      (getCol [("name", [Cell.str "Bob"])] "name").length ∧
    hasCol (anonymize_dataframe_column [("name", [Cell.str "Bob"])] "name"
      "anon" cfg0) "anon" = true :=
  ⟨(column_rows_anonymized [("name", [Cell.str "Bob"])] "name" "anon" cfg0
      (by decide)).1,
   (column_rows_anonymized [("name", [Cell.str "Bob"])] "name" "anon" cfg0
      (by decide)).2.2⟩

/-- C7: the source column is coerced to text before processing — each target
row is the anonymization of the stringified source cell, where a string passes
through, a number is printed, and a null becomes the string "None". -/
theorem column_values_stringified (df : DataFrame)
    (column_name new_column_name : String) (engine_config : EngineConfig)
    (h : hasCol df column_name = true) :
    getCol (anonymize_dataframe_column df column_name new_column_name
        engine_config) new_column_name =
      (getCol df column_name).map
        (fun v => Cell.str ((anonymize_text (cellStr v) engine_config).1)) ∧
    cellStr Cell.null = "None" ∧
    (∀ n : Int, cellStr (Cell.int n) = toString n) ∧
    (∀ s : String, cellStr (Cell.str s) = s) :=
  ⟨anonDF_target df column_name new_column_name engine_config,
   rfl, fun _ => rfl, fun _ => rfl⟩

/-- C7 witness: a number cell and a null cell are stringified before
anonymization. -/
theorem column_values_stringified_w :
    getCol (anonymize_dataframe_column [("v", [Cell.int 42, Cell.null])] "v"
        "anon" cfg0) "anon" = [Cell.str "42", Cell.str "None"] := by
  rw [(column_values_stringified [("v", [Cell.int 42, Cell.null])] "v" "anon"
    cfg0 (by decide)).1]
  rfl

/-- C10: `anonymize_dataframe_column` mutates the source column itself — after
the call it holds the string-coerced values of the original cells. -/
theorem source_column_coerced (df : DataFrame)
    (column_name new_column_name : String) (engine_config : EngineConfig)
    (h1 : hasCol df column_name = true) (h2 : new_column_name ≠ column_name) :
    getCol (anonymize_dataframe_column df column_name new_column_name
        engine_config) column_name =
      (getCol df column_name).map (fun v => Cell.str (cellStr v)) :=
  anonDF_source df column_name new_column_name engine_config h2

/-- C10 witness: the numeric and null source cells are replaced by their
string representations in the source column. -/
theorem source_column_coerced_w :
    getCol (anonymize_dataframe_column [("v", [Cell.int 7, Cell.null])] "v"
        "anon" cfg0) "v" = [Cell.str "7", Cell.str "None"] := by
  rw [source_column_coerced [("v", [Cell.int 7, Cell.null])] "v" "anon" cfg0
    (by decide) (by decide)]
  rfl
